import Mathlib

/-!
Verification of the eBridge automation script
(`src/server/Services/ebEmulator/ebridge.py`).

The script is a single linear procedure.  We embed it as a function from
the command-line argument vector `argv` (including the program name at
index 0, as in Python's `sys.argv`) and a DOM-evaluation environment
(mapping a JavaScript expression to the string it evaluates to in the
live page) to the sequence of observable operations the script issues.
A separate fallible semantics `runOps` models each browser operation
possibly raising an exception; since the script has no handler, the
first failure aborts the whole run.
-/

namespace Ebridge

/-- One observable operation issued by the script: console output,
process exit, and the browser-automation calls.  `browserClose` is in
the vocabulary (the automation library offers a shutdown call) so that
"the script never issues it" is a statement about the trace, not about
the type. -/
inductive Event where
  | printed (s : String)
  | exited (code : Nat)
  | browserNew (headless : Bool)
  | browserStart
  | browserClose
  | visit (url : String)
  | sleep (seconds : Nat)
  | fill (selector : String) (value : String)
  | clickSelector (selector : String)
  | clickRole (role : String) (name : String)
  | waitForLoad
  | evalJs (script : String)
deriving DecidableEq

/-- Login page URL (line 18). -/
def loginUrl : String := "https://ebridge.xjtlu.edu.cn"

/-- Username field selector (line 20). -/
def userSelector : String := "#MUA_CODE\\.DUMMY\\.MENSYS"

/-- Password field selector (line 21). -/
def passSelector : String := "#PASSWORD\\.DUMMY\\.MENSYS"

/-- Submit button selector (line 22). -/
def submitSelector : String :=
  "body > div > form > div:nth-child(9) > div > div > div.sv-panel-body > div > fieldset > div:nth-child(4) > div.sv-col-sm-6.sv-col-sm-push-6 > div > input"

/-- Portal menu anchor selector (lines 24 and 25). -/
def menuSelector : String :=
  "body > div.sv-page-wrapper > div.sv-page-content.sv-container-fluid > div.sv-row > div:nth-child(2) > div > div > div:nth-child(2) > div.sv-list-group.sv-portal-2-col > div > div.sv-tiled-container > div > div > div:nth-child(1) > a"

/-- JavaScript clearing the menu anchor's target (line 24). -/
def setTargetJs : String :=
  "document.querySelector(\"" ++ menuSelector ++ "\").target = \"\""

/-- Accessible name of the Timetables button (line 27): a leading
U+F022 icon glyph, the word between single spaces, and a trailing
U+E260 icon glyph. -/
def timetablesName : String := " Timetables "

/-- JavaScript redirecting to the timetable page via a computed
DOM path (line 28). -/
def timetableJs : String :=
  "window.location = document.querySelector(\"#collapsible-panel-I7\").childNodes[3].childNodes[1].childNodes[1].childNodes[0].childNodes[0].childNodes[3].childNodes[5].childNodes[3].childNodes[0].href"

/-- Timetable tile selector (line 33). -/
def tileSelector : String :=
  "body > div.sv-page-wrapper > div.sv-page-content.sv-container-fluid > div.sv-row > div > div:nth-child(2) > div.sv-list-group > div > div > div.sv-row > div > div:nth-child(1) > div > a > div"

/-- JavaScript expression read and printed at the end (line 34). -/
def frameSrcJs : String := "document.getElementById(\x27myFrame\x27).src"

/-- Error message printed when arguments are missing (line 12). -/
def errorMsg : String := "Error: Missing username or password arguments"

/-- The operations of the automation flow (lines 16-35), in program
order, for given credentials.  `env` maps a JavaScript expression to
the string it evaluates to in the live page. -/
def successTrace (username password : String) (env : String → String) : List Event :=
  [ Event.browserNew false,
    Event.browserStart,
    Event.visit loginUrl,
    Event.sleep 3,
    Event.fill userSelector username,
    Event.fill passSelector password,
    Event.clickSelector submitSelector,
    Event.waitForLoad,
    Event.evalJs setTargetJs,
    Event.clickSelector menuSelector,
    Event.waitForLoad,
    Event.clickRole "button" timetablesName,
    Event.evalJs timetableJs,
    Event.sleep 1,
    Event.clickRole "button" "确定",
    Event.clickSelector tileSelector,
    Event.evalJs frameSrcJs,
    Event.printed (env frameSrcJs),
    Event.sleep 2 ]

/-- The whole script (lines 7-35): the argument-count check of line 7
selects the error path (print an error, exit with status 1) or the
automation flow with `sys.argv[1]` and `sys.argv[2]` as credentials. -/
def scriptTrace (argv : List String) (env : String → String) : List Event :=
  if 2 < argv.length then
    successTrace (argv.getD 1 "") (argv.getD 2 "") env
  else
    [ Event.printed errorMsg, Event.exited 1 ]

/-- The strings the script prints to standard output, in order. -/
def printedOutputs (t : List Event) : List String :=
  t.filterMap fun e =>
    match e with
    | Event.printed s => some s
    | _ => none

/-- The durations of the wall-clock sleeps in the trace, in order. -/
def sleepDurations (t : List Event) : List Nat :=
  t.filterMap fun e =>
    match e with
    | Event.sleep n => some n
    | _ => none

/-- Whether an event is a click on a page element. -/
def isClick : Event → Bool
  | Event.clickSelector _ => true
  | Event.clickRole _ _ => true
  | _ => false

/-- Number of click operations in a trace. -/
def countClicks (t : List Event) : Nat :=
  (t.filter isClick).length

/-- Whether an event is an operation on the browser (as opposed to
console output, process exit, or a pure sleep). -/
def isBrowserOp : Event → Bool
  | Event.printed _ => false
  | Event.exited _ => false
  | Event.sleep _ => false
  | _ => true

/-- Fallible execution of an operation sequence: each operation may
raise (modelled by the environment `fenv` returning `Except.error`);
the script contains no handler, so the first failure aborts the run
with that error. -/
def runOps : List Event → (Event → Except String Unit) → Except String Unit
  | [], _ => Except.ok ()
  | e :: rest, fenv =>
    match fenv e with
    | Except.ok _ => runOps rest fenv
    | Except.error msg => Except.error msg

/-- A fixed concrete DOM environment, for instantiating theorems. -/
def env0 : String → String := fun _ => "frameURL"

theorem runOps_ok_iff (ops : List Event) (fenv : Event → Except String Unit) :
    runOps ops fenv = Except.ok () ↔ ∀ e ∈ ops, fenv e = Except.ok () := by
  induction ops with
  | nil => simp [runOps]
  | cons e rest ih =>
    cases hfe : fenv e with
    | ok u =>
      cases u
      simp [runOps, hfe, ih]
    | error msg =>
      simp [runOps, hfe]

theorem runOps_error_propagates (pre : List Event) (e : Event) (post : List Event)
    (fenv : Event → Except String Unit) (msg : String)
    (hpre : ∀ x ∈ pre, fenv x = Except.ok ()) (he : fenv e = Except.error msg) :
    runOps (pre ++ e :: post) fenv = Except.error msg := by
  induction pre with
  | nil => simp [runOps, he]
  | cons a rest ih =>
    have ha : fenv a = Except.ok () := hpre a (by simp)
    simp only [List.cons_append, runOps, ha]
    exact ih (fun x hx => hpre x (by simp [hx]))

/-- C1: with fewer than two positional arguments (`argv.length ≤ 2`,
counting the program name) the script prints an error message and
terminates with exit status 1; with at least two positional arguments
it does not take this error exit and proceeds into the automation
flow. -/
theorem C1_arg_check (argv : List String) (env : String → String) :
    (argv.length ≤ 2 →
      scriptTrace argv env = [Event.printed errorMsg, Event.exited 1]) ∧
    (2 < argv.length →
      Event.exited 1 ∉ scriptTrace argv env ∧
      scriptTrace argv env = successTrace (argv.getD 1 "") (argv.getD 2 "") env) := by
  constructor
  · intro h
    simp [scriptTrace, Nat.not_lt.mpr h]
  · intro h
    refine ⟨?_, by simp [scriptTrace, h]⟩
    simp [scriptTrace, h, successTrace]

theorem C1_arg_check_witness :
    scriptTrace ["ebridge.py"] env0 = [Event.printed errorMsg, Event.exited 1] ∧
    Event.exited 1 ∉ scriptTrace ["ebridge.py", "alice", "pw"] env0 :=
  ⟨(C1_arg_check ["ebridge.py"] env0).1 (by decide),
   ((C1_arg_check ["ebridge.py", "alice", "pw"] env0).2 (by decide)).1⟩

/-- C2: the only explicit error exit is the missing-argument check (an
`exited 1` event occurs in the trace exactly when `argv.length ≤ 2`),
and no exception from a browser operation is caught anywhere: the
fallible run succeeds only when every issued operation succeeds, and
the first operation that raises aborts the whole run with exactly that
error. -/
theorem C2_unhandled_failures (argv : List String) (env : String → String)
    (fenv : Event → Except String Unit) :
    ((Event.exited 1 ∈ scriptTrace argv env) ↔ argv.length ≤ 2) ∧
    (runOps (scriptTrace argv env) fenv = Except.ok () ↔
      ∀ e ∈ scriptTrace argv env, fenv e = Except.ok ()) ∧
    (∀ pre e post msg, scriptTrace argv env = pre ++ e :: post →
      (∀ x ∈ pre, fenv x = Except.ok ()) → fenv e = Except.error msg →
      runOps (scriptTrace argv env) fenv = Except.error msg) := by
  refine ⟨?_, runOps_ok_iff _ _, ?_⟩
  · by_cases h : 2 < argv.length
    · simp [scriptTrace, h, successTrace]
    · simp [scriptTrace, h]
      omega
  · intro pre e post msg heq hpre he
    rw [heq]
    exact runOps_error_propagates pre e post fenv msg hpre he

theorem C2_unhandled_failures_witness :
    runOps (scriptTrace ["ebridge.py", "alice", "pw"] env0)
        (fun _ => Except.error "TimeoutError") = Except.error "TimeoutError" :=
  (C2_unhandled_failures ["ebridge.py", "alice", "pw"] env0
      (fun _ => Except.error "TimeoutError")).2.2
    [] (Event.browserNew false)
    ((scriptTrace ["ebridge.py", "alice", "pw"] env0).drop 1) "TimeoutError"
    rfl (by simp) rfl

/-- C3: on the successful path the only string printed to standard
output is the value of evaluating
`document.getElementById('myFrame').src` in the live page's DOM. -/
theorem C3_printed_output (argv : List String) (env : String → String)
    (h : 2 < argv.length) :
    printedOutputs (scriptTrace argv env) = [env frameSrcJs] := by
  simp [scriptTrace, h, successTrace, printedOutputs]

theorem C3_printed_output_witness :
    printedOutputs (scriptTrace ["ebridge.py", "alice", "pw"] env0) = ["frameURL"] :=
  C3_printed_output ["ebridge.py", "alice", "pw"] env0 (by decide)

/-- C4: with at least two positional arguments, the script navigates to
`https://ebridge.xjtlu.edu.cn` and then fills `sys.argv[1]` into the
username field `#MUA_CODE\.DUMMY\.MENSYS` and `sys.argv[2]` into the
password field `#PASSWORD\.DUMMY\.MENSYS`. -/
theorem C4_credentials_filled (argv : List String) (env : String → String)
    (h : 2 < argv.length) :
    ∃ rest, scriptTrace argv env =
      [ Event.browserNew false,
        Event.browserStart,
        Event.visit loginUrl,
        Event.sleep 3,
        Event.fill userSelector (argv.getD 1 ""),
        Event.fill passSelector (argv.getD 2 "") ] ++ rest := by
  refine ⟨[ Event.clickSelector submitSelector,
            Event.waitForLoad,
            Event.evalJs setTargetJs,
            Event.clickSelector menuSelector,
            Event.waitForLoad,
            Event.clickRole "button" timetablesName,
            Event.evalJs timetableJs,
            Event.sleep 1,
            Event.clickRole "button" "确定",
            Event.clickSelector tileSelector,
            Event.evalJs frameSrcJs,
            Event.printed (env frameSrcJs),
            Event.sleep 2 ], ?_⟩
  simp [scriptTrace, h, successTrace]

theorem C4_credentials_filled_witness :
    ∃ rest, scriptTrace ["ebridge.py", "alice", "pw"] env0 =
      [ Event.browserNew false,
        Event.browserStart,
        Event.visit loginUrl,
        Event.sleep 3,
        Event.fill userSelector "alice",
        Event.fill passSelector "pw" ] ++ rest :=
  C4_credentials_filled ["ebridge.py", "alice", "pw"] env0 (by decide)

/-- C5 counterexample: the claim says the script clicks the submit
button and then exactly three further menu/button elements, i.e. four
click operations in total; on a concrete invocation the automation
flow issues five click operations (submit, the portal menu anchor, the
Timetables button, the 确定 confirmation button, and the timetable
tile), so the claim as stated is false. -/
theorem C5_click_count_counterexample :
    countClicks (scriptTrace ["ebridge.py", "alice", "pw"] env0) = 5 ∧ 5 ≠ 4 := by
  constructor
  · rfl
  · decide

/-- C5 (amended): the script's operation sequence is: open browser,
navigate to the login page, pause, fill two fields, click submit, wait,
click through exactly four site-specific menu/button elements
identified by absolute selectors, roles or computed DOM paths (with
two JavaScript evaluations, a wait and a pause interleaved), read one
attribute, print it, pause, and exit — five click operations in
total. -/
theorem C5_operation_sequence (argv : List String) (env : String → String)
    (h : 2 < argv.length) :
    scriptTrace argv env =
      [ Event.browserNew false,
        Event.browserStart,
        Event.visit loginUrl,
        Event.sleep 3,
        Event.fill userSelector (argv.getD 1 ""),
        Event.fill passSelector (argv.getD 2 ""),
        Event.clickSelector submitSelector,
        Event.waitForLoad,
        Event.evalJs setTargetJs,
        Event.clickSelector menuSelector,
        Event.waitForLoad,
        Event.clickRole "button" timetablesName,
        Event.evalJs timetableJs,
        Event.sleep 1,
        Event.clickRole "button" "确定",
        Event.clickSelector tileSelector,
        Event.evalJs frameSrcJs,
        Event.printed (env frameSrcJs),
        Event.sleep 2 ] ∧
    countClicks (scriptTrace argv env) = 5 := by
  constructor
  · simp [scriptTrace, h, successTrace]
  · simp [scriptTrace, h, successTrace, countClicks, isClick]

theorem C5_operation_sequence_witness :
    countClicks (scriptTrace ["ebridge.py", "bob", "secret"] env0) = 5 :=
  (C5_operation_sequence ["ebridge.py", "bob", "secret"] env0 (by decide)).2

/-- C6: every pause is a fixed wall-clock sleep with a constant
duration: on the automation flow the sleeps are exactly 3 seconds
(immediately after the initial navigation), 1 second (immediately
after the timetable redirect) and 2 seconds (immediately after
printing), and the sleep durations do not depend on the DOM
environment or on the argument values. -/
theorem C6_fixed_sleeps (argv argv2 : List String) (env env2 : String → String) :
    (2 < argv.length →
      sleepDurations (scriptTrace argv env) = [3, 1, 2] ∧
      ∃ t1 t2 t3, scriptTrace argv env =
        t1 ++ [Event.visit loginUrl, Event.sleep 3] ++
        t2 ++ [Event.evalJs timetableJs, Event.sleep 1] ++
        t3 ++ [Event.printed (env frameSrcJs), Event.sleep 2]) ∧
    (argv.length = argv2.length →
      sleepDurations (scriptTrace argv env) = sleepDurations (scriptTrace argv2 env2)) := by
  constructor
  · intro h
    constructor
    · simp [scriptTrace, h, successTrace, sleepDurations]
    · refine ⟨[ Event.browserNew false, Event.browserStart ],
              [ Event.fill userSelector (argv.getD 1 ""),
                Event.fill passSelector (argv.getD 2 ""),
                Event.clickSelector submitSelector,
                Event.waitForLoad,
                Event.evalJs setTargetJs,
                Event.clickSelector menuSelector,
                Event.waitForLoad,
                Event.clickRole "button" timetablesName ],
              [ Event.clickRole "button" "确定",
                Event.clickSelector tileSelector,
                Event.evalJs frameSrcJs ], ?_⟩
      simp [scriptTrace, h, successTrace]
  · intro hlen
    by_cases h : 2 < argv.length
    · have h2 : 2 < argv2.length := hlen ▸ h
      simp [scriptTrace, h, h2, successTrace, sleepDurations]
    · have h2 : ¬ 2 < argv2.length := hlen ▸ h
      simp [scriptTrace, h, h2, sleepDurations]

theorem C6_fixed_sleeps_witness :
    sleepDurations (scriptTrace ["ebridge.py", "alice", "pw"] env0) = [3, 1, 2] ∧
    sleepDurations (scriptTrace ["ebridge.py", "carol", "hunter2"] env0) =
      sleepDurations (scriptTrace ["ebridge.py", "dave", "letmein"] (fun _ => "other")) :=
  ⟨((C6_fixed_sleeps ["ebridge.py", "alice", "pw"] ["x", "y", "z"] env0 env0).1 (by decide)).1,
   (C6_fixed_sleeps ["ebridge.py", "carol", "hunter2"] ["ebridge.py", "dave", "letmein"]
      env0 (fun _ => "other")).2 rfl⟩

/-- C7: the browser session is acquired exactly once at the very start
of the automation flow (`browserNew` then `browserStart` are the first
two events) and is never released: no trace, on any path, contains a
`browserClose` event. -/
theorem C7_never_released (argv : List String) (env : String → String) :
    Event.browserClose ∉ scriptTrace argv env ∧
    (2 < argv.length →
      (scriptTrace argv env).take 2 = [Event.browserNew false, Event.browserStart] ∧
      (scriptTrace argv env).count Event.browserStart = 1) := by
  constructor
  · by_cases h : 2 < argv.length
    · simp [scriptTrace, h, successTrace]
    · simp [scriptTrace, h]
  · intro h
    constructor
    · simp [scriptTrace, h, successTrace]
    · simp [scriptTrace, h, successTrace, List.count_cons]

theorem C7_never_released_witness :
    Event.browserClose ∉ scriptTrace ["ebridge.py", "alice", "pw"] env0 ∧
    (scriptTrace ["ebridge.py", "alice", "pw"] env0).count Event.browserStart = 1 :=
  ⟨(C7_never_released ["ebridge.py", "alice", "pw"] env0).1,
   ((C7_never_released ["ebridge.py", "alice", "pw"] env0).2 (by decide)).2⟩

/-- C8: the browser is always launched in headful mode: every
`browserNew` event in any trace carries `headless = false`. -/
theorem C8_always_headful (argv : List String) (env : String → String) (b : Bool)
    (h : Event.browserNew b ∈ scriptTrace argv env) : b = false := by
  by_cases hl : 2 < argv.length
  · simp [scriptTrace, hl, successTrace] at h
    exact h
  · simp [scriptTrace, hl] at h

theorem C8_always_headful_witness :
    Event.browserNew false ∈ scriptTrace ["ebridge.py", "alice", "pw"] env0 ∧
    false = false :=
  ⟨List.mem_cons_self _ _,
   C8_always_headful ["ebridge.py", "alice", "pw"] env0 false (List.mem_cons_self _ _)⟩

/-- C9: positional arguments beyond the second are ignored: two
invocations with at least two positional arguments that agree on
`sys.argv[1]` and `sys.argv[2]` issue identical traces, regardless of
any additional arguments. -/
theorem C9_extra_args_ignored (argv argv2 : List String) (env : String → String)
    (h : 2 < argv.length) (h2 : 2 < argv2.length)
    (hu : argv.getD 1 "" = argv2.getD 1 "")
    (hp : argv.getD 2 "" = argv2.getD 2 "") :
    scriptTrace argv env = scriptTrace argv2 env := by
  unfold scriptTrace
  rw [if_pos h, if_pos h2, hu, hp]

theorem C9_extra_args_ignored_witness :
    scriptTrace ["ebridge.py", "alice", "pw"] env0 =
      scriptTrace ["other.py", "alice", "pw", "extra", "args"] env0 :=
  C9_extra_args_ignored ["ebridge.py", "alice", "pw"]
    ["other.py", "alice", "pw", "extra", "args"] env0
    (by decide) (by decide) rfl rfl

/-- C10: on the missing-argument error path no browser operation of
any kind is performed: the trace is exactly the error message followed
by the exit, and it contains no browser-related event. -/
theorem C10_error_path_no_browser (argv : List String) (env : String → String)
    (h : argv.length ≤ 2) :
    scriptTrace argv env = [Event.printed errorMsg, Event.exited 1] ∧
    (scriptTrace argv env).filter isBrowserOp = [] := by
  have hn : ¬ 2 < argv.length := Nat.not_lt.mpr h
  constructor
  · simp [scriptTrace, hn]
  · simp [scriptTrace, hn, isBrowserOp]

theorem C10_error_path_no_browser_witness :
    scriptTrace ["ebridge.py", "alice"] env0 =
      [Event.printed errorMsg, Event.exited 1] ∧
    (scriptTrace ["ebridge.py", "alice"] env0).filter isBrowserOp = [] :=
  C10_error_path_no_browser ["ebridge.py", "alice"] env0 (by decide)

end Ebridge
